import Mathlib

/-
Verification of the scheme-parser evaluator core (src/ast.rs, src/value.rs,
src/env.rs, src/eval.rs) against its natural-language specification.

Modelling conventions:
- Rust f64 literals and arithmetic are modelled by Rat (exact rationals).
  Every numeric computation exercised by the claims involves only small
  dyadic rationals, on which binary64 arithmetic is exact, so the two agree
  there. The arithmetic goes through mkRat-based wrappers (ratAdd etc.)
  because the kernel cannot reduce the irreducible Rat instance operations;
  the theorems ratAdd_eq etc. below prove the wrappers equal the standard
  Rat operations.
- Rc<RefCell<Env>> cells are modelled by an explicit store (a list of Env
  values); an address is an index into the store. Rc::new(RefCell::new(x))
  is allocation (append), borrow_mut mutation is a store update. Env values
  held directly (the &mut Env threaded through eval) are plain values.
- eval carries a fuel parameter bounding recursion depth; exhaustion yields
  the distinguished outcome Res.timeout (the Rust program would consume one
  host stack frame per nested call and can diverge or exhaust the stack).
- A Rust panic (the out-of-bounds vector index args[0] reachable in the
  builtins - and /) is the distinguished outcome Res.crash, never a value
  or an EvalError.
-/

namespace SchemeSpec

/-- Syntax tree, from src/ast.rs (enum Expr). -/
inductive Expr where
  | Symbol (s : String)
  | Number (n : Rat)
  | List (l : List Expr)

mutual

def exprDecEq : (a b : Expr) → Decidable (a = b)
  | .Symbol a, .Symbol b =>
    if h : a = b then .isTrue (by rw [h]) else .isFalse (fun hh => by cases hh; exact h rfl)
  | .Number a, .Number b =>
    if h : a = b then .isTrue (by rw [h]) else .isFalse (fun hh => by cases hh; exact h rfl)
  | .List a, .List b =>
    match exprListDecEq a b with
    | .isTrue h => .isTrue (by rw [h])
    | .isFalse h => .isFalse (fun hh => h (by cases hh; rfl))
  | .Symbol _, .Number _ => .isFalse (fun h => Expr.noConfusion h)
  | .Symbol _, .List _ => .isFalse (fun h => Expr.noConfusion h)
  | .Number _, .Symbol _ => .isFalse (fun h => Expr.noConfusion h)
  | .Number _, .List _ => .isFalse (fun h => Expr.noConfusion h)
  | .List _, .Symbol _ => .isFalse (fun h => Expr.noConfusion h)
  | .List _, .Number _ => .isFalse (fun h => Expr.noConfusion h)

def exprListDecEq : (a b : List Expr) → Decidable (a = b)
  | [], [] => .isTrue rfl
  | [], _ :: _ => .isFalse (fun h => List.noConfusion h)
  | _ :: _, [] => .isFalse (fun h => List.noConfusion h)
  | x :: xs, y :: ys =>
    match exprDecEq x y, exprListDecEq xs ys with
    | .isTrue h1, .isTrue h2 => .isTrue (by rw [h1, h2])
    | .isFalse h1, _ => .isFalse (fun h => by cases h; exact h1 rfl)
    | .isTrue _, .isFalse h2 => .isFalse (fun h => by cases h; exact h2 rfl)

end

instance : DecidableEq Expr := exprDecEq

/-- Tags for the ten builtin procedures installed by Env::define_builtin
(src/env.rs). The Rust BuiltinFunc stores a function pointer; since the set
of pointers ever constructed is exactly these ten closures, the pointer is
modelled by a tag and applied through applyBuiltin below. -/
inductive Builtin where
  | add | sub | mul | div | lt | le | gt | ge | eqB | neB
deriving DecidableEq

/-- Runtime values, from src/value.rs (enum Value). A UserFunction's
env: Rc<RefCell<Env>> is the store address envRef. -/
inductive Value where
  | Number (n : Rat)
  | Bool (b : Bool)
  | BuiltinFunction (name : String) (func : Builtin)
  | Function (params : List String) (body : Expr) (envRef : Nat) (name : Option String)
  | Nil
deriving DecidableEq

/-- Error taxonomy, from src/eval.rs (enum EvalError). -/
inductive EvalError where
  | UnboundSymbol (s : String)
  | InvalidSyntax (expr : Expr) (desc : String)
  | TypeError (expected : String) (found : Value) (in_expr : Expr)
  | ArityMismatch (expected : Nat) (found : Nat) (in_expr : Expr)
  | OtherError (msg : String)
deriving DecidableEq

/-- Environment frame, from src/env.rs (struct Env). The HashMap is
modelled by an association list with overwrite-on-insert; parent is a store
address when present. -/
structure Env where
  vars : List (String × Value)
  parent : Option Nat
deriving DecidableEq

/-- The heap of Rc<RefCell<Env>> cells; an address is an index. -/
abbrev Store := List Env

/-- Evaluation outcome: a value, a returned EvalError, a Rust panic
(crash), or exhaustion of the modelled recursion budget (timeout). -/
inductive Res (α : Type) where
  | ok (v : α)
  | err (e : EvalError)
  | crash
  | timeout
deriving DecidableEq

/-- HashMap::get on the vars map. -/
def lookupVar : List (String × Value) → String → Option Value
  | [], _ => none
  | (k, v) :: rest, n => if k = n then some v else lookupVar rest n

/-- HashMap::insert on the vars map (insert or overwrite). -/
def insertVar : List (String × Value) → String → Value → List (String × Value)
  | [], n, v => [(n, v)]
  | (k, w) :: rest, n, v => if k = n then (n, v) :: rest else (k, w) :: insertVar rest n v

/-- Env::define (src/env.rs): inserts or overwrites in the local frame. -/
def Env.define (env : Env) (name : String) (v : Value) : Env :=
  { env with vars := insertVar env.vars name v }

/-- Env::get (src/env.rs): search the local frame, then walk parent links.
The fuel bounds the number of parent hops (the Rust recursion walks a
finite chain; in every state reachable from Env::new the chain is acyclic,
so fuel = store size always suffices). Result: some (some v) = found,
some none = None (unbound), none = fuel exhausted or dangling address
(unreachable in states the Rust program can produce). -/
def Env.get (st : Store) : Nat → Env → String → Option (Option Value)
  | 0, env, name =>
    match lookupVar env.vars name with
    | some v => some (some v)
    | none =>
      match env.parent with
      | none => some none
      | some _ => none
  | Nat.succ f, env, name =>
    match lookupVar env.vars name with
    | some v => some (some v)
    | none =>
      match env.parent with
      | none => some none
      | some a =>
        match st[a]? with
        | some p => Env.get st f p name
        | none => none

/-- Env::new_child (src/env.rs): parent: Some(Rc::new(RefCell::new(self.clone()))),
i.e. the parent link points at a freshly allocated copy of self, and the
new frame starts with no local bindings. -/
def Env.new_child (env : Env) (st : Store) : Store × Env :=
  (st ++ [env], { vars := [], parent := some st.length })

/-- Kernel-computable rational addition; equals Rat addition (ratAdd_eq). -/
def ratAdd (a b : Rat) : Rat := mkRat (a.num * b.den + b.num * a.den) (a.den * b.den)

/-- Kernel-computable rational subtraction. -/
def ratSub (a b : Rat) : Rat := mkRat (a.num * b.den - b.num * a.den) (a.den * b.den)

/-- Kernel-computable rational multiplication. -/
def ratMul (a b : Rat) : Rat := mkRat (a.num * b.num) (a.den * b.den)

/-- Kernel-computable rational negation. -/
def ratNeg (a : Rat) : Rat := mkRat (-a.num) a.den

/-- Kernel-computable rational reciprocal (0 maps to 0, as Rat). The f64
code would give infinity at 0; no claim exercises division by zero. -/
def ratInv (a : Rat) : Rat := mkRat (Int.sign a.num * a.den) a.num.natAbs

/-- Kernel-computable rational division. -/
def ratDiv (a b : Rat) : Rat := ratMul a (ratInv b)

/-- Iterator sum of f64 values (empty sum is 0). -/
def ratSum (l : List Rat) : Rat := l.foldl ratAdd 0

/-- Iterator product of f64 values (empty product is 1). -/
def ratProd (l : List Rat) : Rat := l.foldl ratMul 1

/-- The argument-coercion pattern shared by the arithmetic builtins:
map each Value to its number, stopping at the first non-Number with a
TypeError attributed to the call-site expression. -/
def numArgs (expr : Expr) : List Value → Except EvalError (List Rat)
  | [] => Except.ok []
  | v :: rest =>
    match v with
    | Value.Number n => (numArgs expr rest).map (fun l => n :: l)
    | _ => Except.error (EvalError.TypeError "Number" v expr)

/-- The + builtin (src/env.rs): sum of all arguments (empty sum = 0). -/
def builtin_add (args : List Value) (expr : Expr) : Except EvalError Value :=
  (numArgs expr args).map (fun l => Value.Number (ratSum l))

/-- The - builtin (src/env.rs): unary negation with one argument;
otherwise args[0] minus the sum of the rest. With zero arguments the Rust
code indexes args[0] out of bounds and panics: result none. -/
def builtin_sub (args : List Value) (expr : Expr) : Option (Except EvalError Value) :=
  if args.length = 1 then
    match args.head? with
    | some (Value.Number v) => some (Except.ok (Value.Number (ratNeg v)))
    | some v => some (Except.error (EvalError.TypeError "Number" v expr))
    | none => none
  else
    match args.head? with
    | none => none
    | some (Value.Number first) =>
      some ((numArgs expr args.tail).map (fun l => Value.Number (ratSub first (ratSum l))))
    | some v => some (Except.error (EvalError.TypeError "Number" v expr))

/-- The * builtin (src/env.rs): requires at least 2 arguments, else
InvalidSyntax; otherwise the product. -/
def builtin_mul (args : List Value) (expr : Expr) : Except EvalError Value :=
  if args.length < 2 then
    Except.error (EvalError.InvalidSyntax expr "Expected at least 2 arguments")
  else
    (numArgs expr args).map (fun l => Value.Number (ratProd l))

/-- The / builtin (src/env.rs): reciprocal with one argument; otherwise
args[0] divided by the product of the rest. Zero arguments panic (none). -/
def builtin_div (args : List Value) (expr : Expr) : Option (Except EvalError Value) :=
  if args.length = 1 then
    match args.head? with
    | some (Value.Number v) => some (Except.ok (Value.Number (ratDiv 1 v)))
    | some v => some (Except.error (EvalError.TypeError "Number" v expr))
    | none => none
  else
    match args.head? with
    | none => none
    | some (Value.Number first) =>
      some ((numArgs expr args.tail).map (fun l => Value.Number (ratDiv first (ratProd l))))
    | some v => some (Except.error (EvalError.TypeError "Number" v expr))

/-- The comparison builtins < <= > >= = != (src/env.rs) share this shape:
exactly 2 arguments else InvalidSyntax, args[0] checked first, then
args[1], each required to be a Number, result Bool (f args0 args1). -/
def builtin_cmp (f : Rat → Rat → Bool) (args : List Value) (expr : Expr) :
    Except EvalError Value :=
  if args.length = 2 then
    match args with
    | [Value.Number a, Value.Number b] => Except.ok (Value.Bool (f a b))
    | [Value.Number _, v] => Except.error (EvalError.TypeError "Number" v expr)
    | [v, _] => Except.error (EvalError.TypeError "Number" v expr)
    | _ => Except.error (EvalError.InvalidSyntax expr "Expected 2 arguments")
  else
    Except.error (EvalError.InvalidSyntax expr "Expected 2 arguments")

/-- Dispatch of a BuiltinFunc function pointer. -/
def applyBuiltin (b : Builtin) (args : List Value) (expr : Expr) :
    Option (Except EvalError Value) :=
  match b with
  | Builtin.add => some (builtin_add args expr)
  | Builtin.sub => builtin_sub args expr
  | Builtin.mul => some (builtin_mul args expr)
  | Builtin.div => builtin_div args expr
  | Builtin.lt => some (builtin_cmp (fun a b => decide (a < b)) args expr)
  | Builtin.le => some (builtin_cmp (fun a b => decide (a ≤ b)) args expr)
  | Builtin.gt => some (builtin_cmp (fun a b => decide (a > b)) args expr)
  | Builtin.ge => some (builtin_cmp (fun a b => decide (a ≥ b)) args expr)
  | Builtin.eqB => some (builtin_cmp (fun a b => decide (a = b)) args expr)
  | Builtin.neB => some (builtin_cmp (fun a b => decide (a ≠ b)) args expr)

/-- Env::define_builtin (src/env.rs): the ten builtins in source order. -/
def define_builtin (env : Env) : Env :=
  env.define "+" (Value.BuiltinFunction "+" Builtin.add)
    |>.define "-" (Value.BuiltinFunction "-" Builtin.sub)
    |>.define "*" (Value.BuiltinFunction "*" Builtin.mul)
    |>.define "/" (Value.BuiltinFunction "/" Builtin.div)
    |>.define "<" (Value.BuiltinFunction "<" Builtin.lt)
    |>.define "<=" (Value.BuiltinFunction "<=" Builtin.le)
    |>.define ">" (Value.BuiltinFunction ">" Builtin.gt)
    |>.define ">=" (Value.BuiltinFunction ">=" Builtin.ge)
    |>.define "=" (Value.BuiltinFunction "=" Builtin.eqB)
    |>.define "!=" (Value.BuiltinFunction "!=" Builtin.neB)

/-- Env::new (src/env.rs): empty root frame populated with the builtins. -/
def Env.new : Env := define_builtin { vars := [], parent := none }

abbrev EvalR := Res Value × Env × Store

abbrev Evaluator := Expr → Env → Store → EvalR

/-- The params collection pattern of eval (src/eval.rs): each element must
be a Symbol, else the given InvalidSyntax error (first failure wins, as
with collect over Result). -/
def collectSymbols (er : EvalError) : List Expr → Except EvalError (List String)
  | [] => Except.ok []
  | Expr.Symbol s :: rest => (collectSymbols er rest).map (fun l => s :: l)
  | _ :: _ => Except.error er

/-- Left-to-right evaluation of application arguments (src/eval.rs lines
235-238), stopping at the first failure, threading the mutable env. -/
def evalArgs (ev : Evaluator) : List Expr → Env → Store → Res (List Value) × Env × Store
  | [], env, st => (Res.ok [], env, st)
  | e :: rest, env, st =>
    match ev e env st with
    | (Res.ok v, env1, st1) =>
      match evalArgs ev rest env1 st1 with
      | (Res.ok vs, env2, st2) => (Res.ok (v :: vs), env2, st2)
      | (Res.err er, env2, st2) => (Res.err er, env2, st2)
      | (Res.crash, env2, st2) => (Res.crash, env2, st2)
      | (Res.timeout, env2, st2) => (Res.timeout, env2, st2)
    | (Res.err er, env1, st1) => (Res.err er, env1, st1)
    | (Res.crash, env1, st1) => (Res.crash, env1, st1)
    | (Res.timeout, env1, st1) => (Res.timeout, env1, st1)

/-- Sequential binding of parameters to arguments into the local frame
(src/eval.rs lines 257-259). -/
def bindParams : Env → List String → List Value → Env
  | env, n :: ns, v :: vs => bindParams (env.define n v) ns vs
  | env, _, _ => env

/-- The and-form loop (src/eval.rs lines 110-127). -/
def evalAndList (ev : Evaluator) (whole : Expr) : List Expr → Env → Store → EvalR
  | [], env, st => (Res.ok (Value.Bool true), env, st)
  | e :: rest, env, st =>
    match ev e env st with
    | (Res.ok (Value.Bool true), env1, st1) => evalAndList ev whole rest env1 st1
    | (Res.ok (Value.Bool false), env1, st1) => (Res.ok (Value.Bool false), env1, st1)
    | (Res.ok _, env1, st1) =>
      (Res.err (EvalError.InvalidSyntax whole "and requires boolean arguments"), env1, st1)
    | (Res.err er, env1, st1) => (Res.err er, env1, st1)
    | (Res.crash, env1, st1) => (Res.crash, env1, st1)
    | (Res.timeout, env1, st1) => (Res.timeout, env1, st1)

/-- The or-form loop (src/eval.rs lines 136-153). -/
def evalOrList (ev : Evaluator) (whole : Expr) : List Expr → Env → Store → EvalR
  | [], env, st => (Res.ok (Value.Bool false), env, st)
  | e :: rest, env, st =>
    match ev e env st with
    | (Res.ok (Value.Bool true), env1, st1) => (Res.ok (Value.Bool true), env1, st1)
    | (Res.ok (Value.Bool false), env1, st1) => evalOrList ev whole rest env1 st1
    | (Res.ok _, env1, st1) =>
      (Res.err (EvalError.InvalidSyntax whole "or requires boolean arguments"), env1, st1)
    | (Res.err er, env1, st1) => (Res.err er, env1, st1)
    | (Res.crash, env1, st1) => (Res.crash, env1, st1)
    | (Res.timeout, env1, st1) => (Res.timeout, env1, st1)

/-- Test for a literal else test expression within a cond clause. -/
def isElseSym : Expr → Bool
  | Expr.Symbol s => s == "else"
  | _ => false

/-- The cond-form loop (src/eval.rs lines 195-227). A some result is the
loop returning; (none, env, st) is the loop falling through with final
mutable-env state, after which eval produces the no-else InvalidSyntax. -/
def evalCondClauses (ev : Evaluator) (whole : Expr) :
    List Expr → Env → Store → Option EvalR × Env × Store
  | [], env, st => (none, env, st)
  | c :: cs, env, st =>
    match c with
    | Expr.List [cnd, val] =>
      if isElseSym cnd then (some (ev val env st), env, st)
      else
        match ev cnd env st with
        | (Res.ok (Value.Bool true), env1, st1) => (some (ev val env1 st1), env1, st1)
        | (Res.ok (Value.Bool false), env1, st1) => evalCondClauses ev whole cs env1 st1
        | (Res.ok v, env1, st1) =>
          (some (Res.err (EvalError.TypeError "bool" v cnd), env1, st1), env1, st1)
        | (Res.err er, env1, st1) => (some (Res.err er, env1, st1), env1, st1)
        | (Res.crash, env1, st1) => (some (Res.crash, env1, st1), env1, st1)
        | (Res.timeout, env1, st1) => (some (Res.timeout, env1, st1), env1, st1)
    | _ =>
      (some (Res.err (EvalError.InvalidSyntax whole "cond requires a list of pairs"), env, st),
        env, st)

/-- Application of an evaluated callable to evaluated arguments
(src/eval.rs lines 239-268). A Closure call clones the captured frame
(func_env.borrow().clone()), binds the parameters into that copy, and
evaluates the body there; the callers env is untouched by the body. -/
def applyFunc (ev : Evaluator) (func : Value) (args : List Value) (expr funcExpr : Expr)
    (env : Env) (st : Store) : EvalR :=
  match func with
  | Value.BuiltinFunction _ b =>
    match applyBuiltin b args expr with
    | some (Except.ok v) => (Res.ok v, env, st)
    | some (Except.error er) => (Res.err er, env, st)
    | none => (Res.crash, env, st)
  | Value.Function params body envRef _ =>
    if params.length ≠ args.length then
      (Res.err (EvalError.ArityMismatch params.length args.length expr), env, st)
    else
      match st[envRef]? with
      | none => (Res.crash, env, st)
      | some captured =>
        match ev body (bindParams captured params args) st with
        | (r, _, st2) => (r, env, st2)
  | v => (Res.err (EvalError.TypeError "function" v funcExpr), env, st)

/-- The define special form (src/eval.rs lines 18-68), dispatched on the
trailing elements of the list. The function form allocates a copy of the
current env (func_env), constructs the closure pointing at it, inserts the
closure into that stored frame (self-recursion), and also binds it in the
current env. -/
def evalDefine (ev : Evaluator) (expr : Expr) : List Expr → Env → Store → EvalR
  | [target, valExpr], env, st =>
    match target with
    | Expr.Symbol name =>
      match ev valExpr env st with
      | (Res.ok v, env1, st1) => (Res.ok v, Env.define env1 name v, st1)
      | (Res.err er, env1, st1) => (Res.err er, env1, st1)
      | (Res.crash, env1, st1) => (Res.crash, env1, st1)
      | (Res.timeout, env1, st1) => (Res.timeout, env1, st1)
    | Expr.List fn_decl =>
      match fn_decl with
      | Expr.Symbol name :: paramExprs =>
        match collectSymbols
            (EvalError.InvalidSyntax expr "Function parameters must be symbols.") paramExprs with
        | Except.error er => (Res.err er, env, st)
        | Except.ok params =>
          let clo := Value.Function params valExpr st.length (some name)
          (Res.ok clo, Env.define env name clo,
            st ++ [{ vars := insertVar env.vars name clo, parent := env.parent }])
      | _ => (Res.err (EvalError.InvalidSyntax expr "Function name must be a symbol."), env, st)
    | _ => (Res.err (EvalError.InvalidSyntax expr "define requires a symbol or a list"), env, st)
  | _, env, st => (Res.err (EvalError.InvalidSyntax expr "define requires 2 arguments."), env, st)

/-- The lambda special form (src/eval.rs lines 70-102). -/
def evalLambda (expr : Expr) : List Expr → Env → Store → EvalR
  | [paramsExpr, body], env, st =>
    match paramsExpr with
    | Expr.List l =>
      match collectSymbols (EvalError.InvalidSyntax expr "lambda parameters must be symbols") l with
      | Except.error er => (Res.err er, env, st)
      | Except.ok params =>
        (Res.ok (Value.Function params body st.length none), env, st ++ [env])
    | _ => (Res.err (EvalError.InvalidSyntax expr "lambda parameters must be a list"), env, st)
  | _, env, st => (Res.err (EvalError.InvalidSyntax expr "lambda requires 2 arguments"), env, st)

/-- The not special form (src/eval.rs lines 155-170). -/
def evalNot (ev : Evaluator) (expr : Expr) : List Expr → Env → Store → EvalR
  | [arg], env, st =>
    match ev arg env st with
    | (Res.ok (Value.Bool b), env1, st1) => (Res.ok (Value.Bool (!b)), env1, st1)
    | (Res.ok _, env1, st1) =>
      (Res.err (EvalError.InvalidSyntax expr "not requires a boolean argument"), env1, st1)
    | (Res.err er, env1, st1) => (Res.err er, env1, st1)
    | (Res.crash, env1, st1) => (Res.crash, env1, st1)
    | (Res.timeout, env1, st1) => (Res.timeout, env1, st1)
  | _, env, st => (Res.err (EvalError.InvalidSyntax expr "not requires 1 argument"), env, st)

/-- The if special form (src/eval.rs lines 171-187). -/
def evalIf (ev : Evaluator) (expr : Expr) : List Expr → Env → Store → EvalR
  | [c, t, e2], env, st =>
    match ev c env st with
    | (Res.ok (Value.Bool true), env1, st1) => ev t env1 st1
    | (Res.ok (Value.Bool false), env1, st1) => ev e2 env1 st1
    | (Res.ok _, env1, st1) =>
      (Res.err (EvalError.InvalidSyntax expr "if condition must be a boolean"), env1, st1)
    | (Res.err er, env1, st1) => (Res.err er, env1, st1)
    | (Res.crash, env1, st1) => (Res.crash, env1, st1)
    | (Res.timeout, env1, st1) => (Res.timeout, env1, st1)
  | _, env, st => (Res.err (EvalError.InvalidSyntax expr "if requires 3 arguments"), env, st)

/-- Function application (src/eval.rs lines 233-268): evaluate the head,
then the arguments left to right, then apply. -/
def evalApply (ev : Evaluator) (expr funcExpr : Expr) (argExprs : List Expr)
    (env : Env) (st : Store) : EvalR :=
  match ev funcExpr env st with
  | (Res.ok func, env1, st1) =>
    match evalArgs ev argExprs env1 st1 with
    | (Res.ok args, env2, st2) => applyFunc ev func args expr funcExpr env2 st2
    | (Res.err er, env2, st2) => (Res.err er, env2, st2)
    | (Res.crash, env2, st2) => (Res.crash, env2, st2)
    | (Res.timeout, env2, st2) => (Res.timeout, env2, st2)
  | (Res.err er, env1, st1) => (Res.err er, env1, st1)
  | (Res.crash, env1, st1) => (Res.crash, env1, st1)
  | (Res.timeout, env1, st1) => (Res.timeout, env1, st1)

/-- One step of eval (src/eval.rs fn eval), parametrized by the evaluator
used for nested calls. -/
def evalCore (ev : Evaluator) (expr : Expr) (env : Env) (st : Store) : EvalR :=
  match expr with
  | Expr.Number n => (Res.ok (Value.Number n), env, st)
  | Expr.Symbol s =>
    match Env.get st st.length env s with
    | some (some v) => (Res.ok v, env, st)
    | some none => (Res.err (EvalError.UnboundSymbol s), env, st)
    | none => (Res.crash, env, st)
  | Expr.List list =>
    match list with
    | [] => (Res.ok Value.Nil, env, st)
    | first :: rest =>
      match first with
      | Expr.Symbol s =>
        if s = "define" then evalDefine ev expr rest env st
        else if s = "lambda" then evalLambda expr rest env st
        else if s = "and" then
          if rest.length < 2 then
            (Res.err (EvalError.InvalidSyntax expr "and requires at least 2 arguments"), env, st)
          else evalAndList ev expr rest env st
        else if s = "or" then
          if rest.length < 2 then
            (Res.err (EvalError.InvalidSyntax expr "or requires at least 2 arguments"), env, st)
          else evalOrList ev expr rest env st
        else if s = "not" then evalNot ev expr rest env st
        else if s = "if" then evalIf ev expr rest env st
        else if s = "cond" then
          if rest.length < 2 then
            (Res.err (EvalError.InvalidSyntax expr "cond requires at least 2 arguments"), env, st)
          else
            match evalCondClauses ev expr rest env st with
            | (some r, _, _) => r
            | (none, env1, st1) =>
              (Res.err (EvalError.InvalidSyntax expr "cond requires at least one else clause"),
                env1, st1)
        else evalApply ev expr first rest env st
      | _ => evalApply ev expr first rest env st

/-- The evaluator (src/eval.rs fn eval) with an explicit recursion budget:
every nested eval call of the Rust code runs at depth one greater, modelled
by fuel one smaller. -/
def eval (fuel : Nat) (expr : Expr) (env : Env) (st : Store) : EvalR :=
  match fuel with
  | 0 => (Res.timeout, env, st)
  | Nat.succ f => evalCore (fun e2 env2 st2 => eval f e2 env2 st2) expr env st

/-! Helper constructors for concrete programs. -/

def sym (s : String) : Expr := Expr.Symbol s
def num (n : Rat) : Expr := Expr.Number n
def lst (l : List Expr) : Expr := Expr.List l

/-! Concrete programs and states used by the claims. -/

/-- The literal spec program (define (f x) (define y 1) (+ x y)): a define
form with three trailing elements. -/
def scopeDefOrig : Expr := lst [sym "define", lst [sym "f", sym "x"],
  lst [sym "define", sym "y", num 1], lst [sym "+", sym "x", sym "y"]]

/-- Single-body variant (define (f x) (+ (define y 1) x)). -/
def scopeDefAmended : Expr := lst [sym "define", lst [sym "f", sym "x"],
  lst [sym "+", lst [sym "define", sym "y", num 1], sym "x"]]

/-- The call (f 5). -/
def callF5 : Expr := lst [sym "f", num 5]

/-- Top-level state after evaluating the single-body definition of f. -/
def scopeState : EvalR := eval 9 scopeDefAmended Env.new []

/-- Top-level state after additionally evaluating (f 5). -/
def scopeAfterCall : EvalR := eval 9 callF5 scopeState.2.1 scopeState.2.2

/-- An empty environment frame with no parent. -/
def plainEnv : Env := { vars := [], parent := none }

/-- The call (< 1) with a single argument. -/
def ltOne : Expr := lst [sym "<", num 1]

/-- (define (g x y) x): a function of two parameters. -/
def defineG : Expr := lst [sym "define", lst [sym "g", sym "x", sym "y"], sym "x"]

/-- Top-level state after defining g. -/
def gState : EvalR := eval 9 defineG Env.new []

/-- The call (g 1) with one argument for the two-parameter g. -/
def callG1 : Expr := lst [sym "g", num 1]

/-- (+ (define x 1) q): the first argument mutates the environment, the
second fails. -/
def leakExpr : Expr := lst [sym "+", lst [sym "define", sym "x", num 1], sym "q"]

/-- The state after the failing evaluation of leakExpr. -/
def leakState : EvalR := eval 9 leakExpr Env.new []

/-- The body of fact: (if (<= n 1) 1 (* n (fact (- n 1)))). -/
def factBody : Expr := lst [sym "if", lst [sym "<=", sym "n", num 1], num 1,
  lst [sym "*", sym "n", lst [sym "fact", lst [sym "-", sym "n", num 1]]]]

/-- (define (fact n) (if (<= n 1) 1 (* n (fact (- n 1))))). -/
def factDef : Expr := lst [sym "define", lst [sym "fact", sym "n"], factBody]

/-- Top-level state after defining fact. -/
def factState : EvalR := eval 99 factDef Env.new []

/-- A cond clause whose test is literally the Symbol else. -/
def isElseClause : Expr → Bool
  | Expr.List [c, _] => isElseSym c
  | _ => false

/-- Whether a clause list contains an else clause. -/
def containsElse (cs : List Expr) : Bool := cs.any isElseClause

/-- A well-formed cond clause: a 2-element List. -/
def isPairClause : Expr → Bool
  | Expr.List [_, _] => true
  | _ => false

/-- Threading evaluation of a prefix of operands that all evaluate to
Bool true, returning the final mutable state. -/
def allTrueThread (ev : Evaluator) : List Expr → Env → Store → Option (Env × Store)
  | [], env, st => some (env, st)
  | e :: es, env, st =>
    match ev e env st with
    | (Res.ok (Value.Bool true), env1, st1) => allTrueThread ev es env1 st1
    | _ => none

/-- Threading evaluation of a prefix of operands that all evaluate to
Bool false, returning the final mutable state. -/
def allFalseThread (ev : Evaluator) : List Expr → Env → Store → Option (Env × Store)
  | [], env, st => some (env, st)
  | e :: es, env, st =>
    match ev e env st with
    | (Res.ok (Value.Bool false), env1, st1) => allFalseThread ev es env1 st1
    | _ => none

/-- (cond (else 5) 7): an else clause followed by a malformed clause. -/
def condElseExtra : Expr := lst [sym "cond", lst [sym "else", num 5], num 7]

/-- (and false undefined-symbol): note false is itself an unbound symbol. -/
def andFalseUndef : Expr := lst [sym "and", sym "false", sym "undefined-symbol"]

/-- (or true undefined-symbol): note true is itself an unbound symbol. -/
def orTrueUndef : Expr := lst [sym "or", sym "true", sym "undefined-symbol"]

/-- (and (< 2 1) undefined-symbol): first operand evaluates to Bool false. -/
def andShortCircuitExpr : Expr := lst [sym "and", lst [sym "<", num 2, num 1],
  sym "undefined-symbol"]

/-- (or (< 1 2) undefined-symbol): first operand evaluates to Bool true. -/
def orShortCircuitExpr : Expr := lst [sym "or", lst [sym "<", num 1, num 2],
  sym "undefined-symbol"]

/-- General lemma: after insert-or-overwrite, lookup of the inserted name
finds the inserted value. -/
theorem lookupVar_insertVar (vars : List (String × Value)) (n : String) (v : Value) :
    lookupVar (insertVar vars n v) n = some v := by
  induction vars with
  | nil => simp [insertVar, lookupVar]
  | cons kv rest ih =>
    obtain ⟨k, w⟩ := kv
    by_cases h : k = n
    · simp [insertVar, h, lookupVar]
    · simp [insertVar, h, lookupVar, ih]

/-- The wrapper addition agrees with Rat addition. -/
theorem ratAdd_eq (a b : Rat) : ratAdd a b = a + b := by
  rw [ratAdd, Rat.add_def, Rat.normalize_eq_mkRat]

/-- The wrapper subtraction agrees with Rat subtraction. -/
theorem ratSub_eq (a b : Rat) : ratSub a b = a - b := by
  rw [ratSub, Rat.sub_def, Rat.normalize_eq_mkRat]

/-- The wrapper multiplication agrees with Rat multiplication. -/
theorem ratMul_eq (a b : Rat) : ratMul a b = a * b := by
  rw [ratMul, Rat.mul_def, Rat.normalize_eq_mkRat]

/-- The wrapper negation agrees with Rat negation. -/
theorem ratNeg_eq (a : Rat) : ratNeg a = -a := by
  rw [ratNeg]
  have h : (-a).num = -a.num := by simp [Rat.neg_num]
  have h2 : (-a).den = a.den := by simp [Rat.neg_den]
  rw [← h, ← h2, Rat.mkRat_self]

/-- The wrapper reciprocal agrees with Rat inversion. -/
theorem ratInv_eq (a : Rat) : ratInv a = a⁻¹ := by
  rw [ratInv, Rat.inv_def', Rat.mkRat_eq_divInt]
  rcases lt_trichotomy a.num 0 with h | h | h
  · rw [Int.sign_eq_neg_one_of_neg h]
    rw [Int.ofNat_natAbs_of_nonpos (le_of_lt h)]
    rw [neg_one_mul, Rat.divInt_neg, neg_neg]
  · rw [h]
    simp
  · rw [Int.sign_eq_one_of_pos h]
    rw [Int.natAbs_of_nonneg (le_of_lt h)]
    rw [one_mul]

/-- The wrapper division agrees with Rat division. -/
theorem ratDiv_eq (a b : Rat) : ratDiv a b = a / b := by
  rw [ratDiv, ratMul_eq, ratInv_eq, div_eq_mul_inv]

/-- Folding the wrapper addition computes an offset list sum. -/
theorem foldl_ratAdd (l : List Rat) (acc : Rat) : l.foldl ratAdd acc = acc + l.sum := by
  induction l generalizing acc with
  | nil => simp
  | cons x xs ih => simp [List.foldl, ratAdd_eq, ih, List.sum_cons]; ring

/-- The iterator sum agrees with the list sum. -/
theorem ratSum_eq (l : List Rat) : ratSum l = l.sum := by simp [ratSum, foldl_ratAdd]

/-- Folding the wrapper multiplication computes a scaled list product. -/
theorem foldl_ratMul (l : List Rat) (acc : Rat) : l.foldl ratMul acc = acc * l.prod := by
  induction l generalizing acc with
  | nil => simp
  | cons x xs ih => simp [List.foldl, ratMul_eq, ih, List.prod_cons]; ring

/-- The iterator product agrees with the list product. -/
theorem ratProd_eq (l : List Rat) : ratProd l = l.prod := by simp [ratProd, foldl_ratMul]

/-- Claim C8: arithmetic builtin identities on the started root
environment: (+) yields 0, (+ 1 2 3) yields 6, (- 5) yields -5,
(- 10 1 2) yields 7, (/ 2) yields 1/2, (/ 8 2 2) yields 2. -/
theorem C8_arithmetic_identities :
    (eval 9 (lst [sym "+"]) Env.new []).1 = Res.ok (Value.Number 0) ∧
    (eval 9 (lst [sym "+", num 1, num 2, num 3]) Env.new []).1 = Res.ok (Value.Number 6) ∧
    (eval 9 (lst [sym "-", num 5]) Env.new []).1 = Res.ok (Value.Number (-5)) ∧
    (eval 9 (lst [sym "-", num 10, num 1, num 2]) Env.new []).1 = Res.ok (Value.Number 7) ∧
    (eval 9 (lst [sym "/", num 2]) Env.new []).1 = Res.ok (Value.Number (mkRat 1 2)) ∧
    (eval 9 (lst [sym "/", num 8, num 2, num 2]) Env.new []).1 = Res.ok (Value.Number 2) := by
  refine ⟨by decide, by decide, by decide, by decide, by decide, by decide⟩

/-- Claim C10: the builtins - and / are NOT total: on the empty argument
vector the Rust code indexes args[0] out of bounds and panics (modelled by
none at the builtin and Res.crash through eval), instead of returning a
Value or a typed error. -/
theorem C10_sub_div_panic_on_empty :
    builtin_sub [] (lst [sym "-"]) = none ∧
    builtin_div [] (lst [sym "/"]) = none ∧
    (eval 9 (lst [sym "-"]) Env.new []).1 = Res.crash ∧
    (eval 9 (lst [sym "/"]) Env.new []).1 = Res.crash := by
  refine ⟨rfl, rfl, by decide, by decide⟩

/-- Claim C2, counterexample: the define form with two body expressions has
four list elements, so it fails the arity check of the define special form
with InvalidSyntax; it does not succeed as the claim states. -/
theorem C2_counterexample :
    eval 9 scopeDefOrig Env.new [] =
      (Res.err (EvalError.InvalidSyntax scopeDefOrig "define requires 2 arguments."),
        Env.new, []) := by decide

/-- Claim C2 as amended: with the body written as the single expression
(+ (define y 1) x), the definition of f succeeds, (f 5) yields Number 6,
and afterwards looking up y (and even x) in the top-level environment fails
with UnboundSymbol: a define executed inside a function call adds no
binding observable at top level. -/
theorem C2_scoping_isolation :
    scopeState.1 = Res.ok (Value.Function ["x"]
      (lst [sym "+", lst [sym "define", sym "y", num 1], sym "x"]) 0 (some "f")) ∧
    scopeAfterCall.1 = Res.ok (Value.Number 6) ∧
    (eval 9 (sym "y") scopeAfterCall.2.1 scopeAfterCall.2.2).1 =
      Res.err (EvalError.UnboundSymbol "y") ∧
    (eval 9 (sym "x") scopeAfterCall.2.1 scopeAfterCall.2.2).1 =
      Res.err (EvalError.UnboundSymbol "x") := by
  refine ⟨by decide, by decide, by decide, by decide⟩

/-- Claim C1, counterexample: with e the empty frame, create a child via
new_child and then add the binding z to e; looking z up through the child
still fails (some none), even though the binding is present in e itself:
the child holds a snapshot of e, not a shared reference. -/
theorem C1_counterexample :
    (Env.new_child plainEnv []).2.vars = [] ∧
    Env.get (Env.new_child plainEnv []).1 2 (Env.new_child plainEnv []).2 "z" = some none ∧
    Env.get (Env.new_child plainEnv []).1 2 (Env.define plainEnv "z" (Value.Number 1)) "z" =
      some (some (Value.Number 1)) := by
  refine ⟨rfl, by decide, by decide⟩

/-- Claim C1 as amended: new_child produces a frame with no local bindings
whose parent is a freshly allocated copy (snapshot) of the current frame
taken at creation time; a binding defined into the original frame after the
child is created is not visible to lookups through the child, although it
is visible in the original frame. Stated for an arbitrary parentless frame
and store. -/
theorem C1_new_child_snapshot (vars : List (String × Value)) (st : Store)
    (name : String) (v : Value) (fuel : Nat) (h : lookupVar vars name = none) :
    (Env.new_child ⟨vars, none⟩ st).2.vars = [] ∧
    (Env.new_child ⟨vars, none⟩ st).2.parent = some st.length ∧
    (Env.new_child ⟨vars, none⟩ st).1 = st ++ [⟨vars, none⟩] ∧
    Env.get (Env.new_child ⟨vars, none⟩ st).1 (fuel + 1) (Env.new_child ⟨vars, none⟩ st).2 name
      = some none ∧
    Env.get (Env.new_child ⟨vars, none⟩ st).1 fuel (Env.define ⟨vars, none⟩ name v) name
      = some (some v) := by
  have hget : (st ++ [(⟨vars, none⟩ : Env)])[st.length]? = some ⟨vars, none⟩ :=
    List.getElem?_concat_length st ⟨vars, none⟩
  refine ⟨rfl, rfl, rfl, ?_, ?_⟩
  · cases fuel with
    | zero => simp [Env.new_child, Env.get, lookupVar, hget, h]
    | succ f => simp [Env.new_child, Env.get, lookupVar, hget, h]
  · cases fuel with
    | zero => simp [Env.new_child, Env.get, Env.define, lookupVar_insertVar]
    | succ f => simp [Env.new_child, Env.get, Env.define, lookupVar_insertVar]

/-- Witness for C1_new_child_snapshot at a concrete frame and binding. -/
theorem C1_new_child_snapshot_witness :
    lookupVar [] "z" = none ∧
    ((Env.new_child ⟨[], none⟩ []).2.vars = [] ∧
     (Env.new_child ⟨[], none⟩ []).2.parent = some 0 ∧
     (Env.new_child ⟨[], none⟩ []).1 = [] ++ [⟨[], none⟩] ∧
     Env.get (Env.new_child ⟨[], none⟩ []).1 1 (Env.new_child ⟨[], none⟩ []).2 "z" = some none ∧
     Env.get (Env.new_child ⟨[], none⟩ []).1 0 (Env.define ⟨[], none⟩ "z" (Value.Number 1)) "z"
       = some (some (Value.Number 1))) :=
  ⟨rfl, C1_new_child_snapshot [] [] "z" (Value.Number 1) 0 rfl⟩

/-- Claim C3, counterexample: (< 1) fails with InvalidSyntax carrying the
text Expected 2 arguments, not with ArityMismatch as the claim states. -/
theorem C3_counterexample :
    (eval 9 ltOne Env.new []).1 =
      Res.err (EvalError.InvalidSyntax ltOne "Expected 2 arguments") ∧
    (eval 9 ltOne Env.new []).1 ≠ Res.err (EvalError.ArityMismatch 2 1 ltOne) := by
  refine ⟨by decide, by decide⟩

/-- Claim C3 as amended: builtin arity violations fail with InvalidSyntax
(not with the ArityMismatch category): * with fewer than 2 arguments, and
each comparison builtin with an argument count other than 2, return
InvalidSyntax with the corresponding Expected text. -/
theorem C3_builtin_arity_invalid_syntax :
    (∀ (args : List Value) (expr : Expr), args.length < 2 →
      builtin_mul args expr =
        Except.error (EvalError.InvalidSyntax expr "Expected at least 2 arguments")) ∧
    (∀ (f : Rat → Rat → Bool) (args : List Value) (expr : Expr), args.length ≠ 2 →
      builtin_cmp f args expr =
        Except.error (EvalError.InvalidSyntax expr "Expected 2 arguments")) ∧
    (∀ (args : List Value) (expr : Expr), args.length ≠ 2 →
      applyBuiltin Builtin.lt args expr =
        some (Except.error (EvalError.InvalidSyntax expr "Expected 2 arguments")) ∧
      applyBuiltin Builtin.le args expr =
        some (Except.error (EvalError.InvalidSyntax expr "Expected 2 arguments")) ∧
      applyBuiltin Builtin.gt args expr =
        some (Except.error (EvalError.InvalidSyntax expr "Expected 2 arguments")) ∧
      applyBuiltin Builtin.ge args expr =
        some (Except.error (EvalError.InvalidSyntax expr "Expected 2 arguments")) ∧
      applyBuiltin Builtin.eqB args expr =
        some (Except.error (EvalError.InvalidSyntax expr "Expected 2 arguments")) ∧
      applyBuiltin Builtin.neB args expr =
        some (Except.error (EvalError.InvalidSyntax expr "Expected 2 arguments"))) := by
  have hc : ∀ (f : Rat → Rat → Bool) (args : List Value) (expr : Expr), args.length ≠ 2 →
      builtin_cmp f args expr =
        Except.error (EvalError.InvalidSyntax expr "Expected 2 arguments") := by
    intro f args expr h
    simp [builtin_cmp, h]
  refine ⟨?_, hc, ?_⟩
  · intro args expr h
    simp [builtin_mul, h]
  · intro args expr h
    exact ⟨by simp [applyBuiltin, hc _ _ _ h], by simp [applyBuiltin, hc _ _ _ h],
      by simp [applyBuiltin, hc _ _ _ h], by simp [applyBuiltin, hc _ _ _ h],
      by simp [applyBuiltin, hc _ _ _ h], by simp [applyBuiltin, hc _ _ _ h]⟩

/-- Witness for C3_builtin_arity_invalid_syntax at one-argument calls. -/
theorem C3_builtin_arity_invalid_syntax_witness :
    ([Value.Number 1].length < 2 ∧
      builtin_mul [Value.Number 1] (lst []) =
        Except.error (EvalError.InvalidSyntax (lst []) "Expected at least 2 arguments")) ∧
    ([Value.Number 1].length ≠ 2 ∧
      builtin_cmp (fun a b => decide (a < b)) [Value.Number 1] (lst []) =
        Except.error (EvalError.InvalidSyntax (lst []) "Expected 2 arguments")) :=
  ⟨⟨by decide, C3_builtin_arity_invalid_syntax.1 [Value.Number 1] (lst []) (by decide)⟩,
    ⟨by decide,
      C3_builtin_arity_invalid_syntax.2.1 (fun a b => decide (a < b)) [Value.Number 1] (lst [])
        (by decide)⟩⟩

/-- Claim C4: applying a Closure with an argument count different from its
parameter count fails with ArityMismatch carrying expected = parameter
count and found = argument count (for every evaluator, closure and state);
concretely, calling the two-parameter g with one argument fails with
ArityMismatch expected 2 found 1 attributed to the call expression. -/
theorem C4_closure_arity_mismatch :
    (∀ (ev : Evaluator) (params : List String) (body : Expr) (envRef : Nat)
        (nm : Option String) (args : List Value) (expr funcExpr : Expr) (env : Env) (st : Store),
      params.length ≠ args.length →
      applyFunc ev (Value.Function params body envRef nm) args expr funcExpr env st =
        (Res.err (EvalError.ArityMismatch params.length args.length expr), env, st)) ∧
    (eval 9 callG1 gState.2.1 gState.2.2).1 =
      Res.err (EvalError.ArityMismatch 2 1 callG1) := by
  refine ⟨?_, by decide⟩
  intro ev params body envRef nm args expr funcExpr env st h
  simp [applyFunc, h]

/-- Witness for C4_closure_arity_mismatch: a two-parameter closure applied
to one argument. -/
theorem C4_closure_arity_mismatch_witness :
    (["x", "y"].length ≠ [Value.Number 1].length ∧
      applyFunc (fun _ env st => (Res.timeout, env, st))
          (Value.Function ["x", "y"] (sym "x") 0 none) [Value.Number 1]
          (lst []) (sym "g") plainEnv [] =
        (Res.err (EvalError.ArityMismatch 2 1 (lst [])), plainEnv, [])) :=
  ⟨by decide,
    C4_closure_arity_mismatch.1 (fun _ env st => (Res.timeout, env, st)) ["x", "y"] (sym "x")
      0 none [Value.Number 1] (lst []) (sym "g") plainEnv [] (by decide)⟩

/-- Claim C9, counterexample: evaluating (+ (define x 1) q) fails with
UnboundSymbol q, yet the environment after the failing call differs from
the environment before it: the binding x added by the first argument
persists. Errors do not leave the environment unchanged. -/
theorem C9_counterexample :
    leakState.1 = Res.err (EvalError.UnboundSymbol "q") ∧
    Env.get leakState.2.2 1 leakState.2.1 "x" = some (some (Value.Number 1)) ∧
    Env.get [] 1 Env.new "x" = some none ∧
    leakState.2.1 ≠ Env.new := by
  refine ⟨by decide, by decide, by decide, by decide⟩

/-- Claim C9 as amended: the error value reaching the caller is exactly the
one constructed at the failure point and short-circuits the enclosing form
(shown for the define form: a failing value expression yields that very
error and adds no binding), but the environment is not rolled back: state
mutated by sub-expressions evaluated before the failure persists, as the
(+ (define x 1) q) instance shows. -/
theorem C9_error_propagation :
    (∀ (fuel : Nat) (name : String) (vexpr : Expr) (env env1 : Env) (st st1 : Store)
        (er : EvalError),
      eval fuel vexpr env st = (Res.err er, env1, st1) →
      eval (fuel + 1) (Expr.List [Expr.Symbol "define", Expr.Symbol name, vexpr]) env st =
        (Res.err er, env1, st1)) ∧
    leakState.1 = Res.err (EvalError.UnboundSymbol "q") ∧
    Env.get leakState.2.2 1 leakState.2.1 "x" = some (some (Value.Number 1)) := by
  refine ⟨?_, by decide, by decide⟩
  intro fuel name vexpr env env1 st st1 er h
  simp [eval, evalCore, evalDefine, h]

/-- Witness for C9_error_propagation: the failing value expression q inside
a define. -/
theorem C9_error_propagation_witness :
    (eval 1 (sym "q") plainEnv [] = (Res.err (EvalError.UnboundSymbol "q"), plainEnv, []) ∧
      eval 2 (Expr.List [Expr.Symbol "define", Expr.Symbol "x", sym "q"]) plainEnv [] =
        (Res.err (EvalError.UnboundSymbol "q"), plainEnv, [])) :=
  ⟨by decide,
    C9_error_propagation.1 1 "x" (sym "q") plainEnv plainEnv [] [] (EvalError.UnboundSymbol "q")
      (by decide)⟩

/-- Collecting parameters from a list of symbol expressions succeeds with
exactly those names, whatever the error would have been. -/
theorem collectSymbols_map_ok (er : EvalError) (params : List String) :
    collectSymbols er (params.map Expr.Symbol) = Except.ok params := by
  induction params with
  | nil => rfl
  | cons p ps ih => simp [collectSymbols, ih, Except.map]

/-- Claim C7: a function form (define (fname params...) body) constructs
the closure, allocates a copy of the current frame, stores the closure
under its own name inside that captured frame (at construction time) and
also binds it in the current environment, so self-recursion resolves by
normal lookup; insert-then-lookup finds the closure in both places; and
concretely, after defining fact in a fresh root environment, (fact 5)
yields Number 120. -/
theorem C7_self_recursion :
    (∀ (fuel : Nat) (name : String) (params : List String) (body : Expr) (env : Env)
        (st : Store),
      eval (fuel + 1)
          (Expr.List [Expr.Symbol "define",
            Expr.List (Expr.Symbol name :: params.map Expr.Symbol), body]) env st =
        (Res.ok (Value.Function params body st.length (some name)),
          Env.define env name (Value.Function params body st.length (some name)),
          st ++ [{ vars := insertVar env.vars name (Value.Function params body st.length (some name)),
                   parent := env.parent }])) ∧
    (∀ (env : Env) (name : String) (clo : Value),
      lookupVar (Env.define env name clo).vars name = some clo ∧
      lookupVar (insertVar env.vars name clo) name = some clo) ∧
    factState.1 = Res.ok (Value.Function ["n"] factBody 0 (some "fact")) ∧
    (eval 99 (lst [sym "fact", num 5]) factState.2.1 factState.2.2).1 =
      Res.ok (Value.Number 120) := by
  refine ⟨?_, ?_, by decide, by decide⟩
  · intro fuel name params body env st
    simp [eval, evalCore, evalDefine, collectSymbols_map_ok]
  · intro env name clo
    exact ⟨lookupVar_insertVar env.vars name clo, lookupVar_insertVar env.vars name clo⟩

/-- If the clause list contains an else clause, the cond loop always
returns (it never falls through to the no-matching-clause error). -/
theorem condClauses_else_isSome (ev : Evaluator) (whole : Expr) (cs : List Expr) :
    ∀ (env : Env) (st : Store), containsElse cs = true →
      (evalCondClauses ev whole cs env st).1.isSome = true := by
  induction cs with
  | nil => intro env st h; simp [containsElse] at h
  | cons c cs ih =>
    intro env st h
    match c with
    | Expr.Symbol s => simp [evalCondClauses]
    | Expr.Number n => simp [evalCondClauses]
    | Expr.List [] => simp [evalCondClauses]
    | Expr.List [a] => simp [evalCondClauses]
    | Expr.List (a :: b :: d :: l) => simp [evalCondClauses]
    | Expr.List [cnd, val] =>
      by_cases he : isElseSym cnd
      · simp [evalCondClauses, he]
      · have hcs : containsElse cs = true := by
          simp [containsElse, List.any_cons, isElseClause, he] at h
          simpa [containsElse] using h
        rcases hev : ev cnd env st with ⟨r, env1, st1⟩
        match r with
        | Res.ok (Value.Bool true) => simp [evalCondClauses, he, hev]
        | Res.ok (Value.Bool false) => simp [evalCondClauses, he, hev]; exact ih env1 st1 hcs
        | Res.ok (Value.Number n) => simp [evalCondClauses, he, hev]
        | Res.ok (Value.BuiltinFunction n b) => simp [evalCondClauses, he, hev]
        | Res.ok (Value.Function p b a nm) => simp [evalCondClauses, he, hev]
        | Res.ok Value.Nil => simp [evalCondClauses, he, hev]
        | Res.err er => simp [evalCondClauses, he, hev]
        | Res.crash => simp [evalCondClauses, he, hev]
        | Res.timeout => simp [evalCondClauses, he, hev]

/-- The and loop returns Bool false at the first operand evaluating to
Bool false, with the state from that operand, independent of anything
after it (later operands are never evaluated). -/
theorem andList_shortCircuit (ev : Evaluator) (whole e : Expr) (pre : List Expr) :
    ∀ (post : List Expr) (env st env1 st1 env2 st2 : _),
      allTrueThread ev pre env st = some (env1, st1) →
      ev e env1 st1 = (Res.ok (Value.Bool false), env2, st2) →
      evalAndList ev whole (pre ++ e :: post) env st =
        (Res.ok (Value.Bool false), env2, st2) := by
  induction pre with
  | nil =>
    intro post env st env1 st1 env2 st2 h1 h2
    simp only [allTrueThread, Option.some.injEq, Prod.mk.injEq] at h1
    obtain ⟨rfl, rfl⟩ := h1
    simp [evalAndList, h2]
  | cons p pre ih =>
    intro post env st env1 st1 env2 st2 h1 h2
    rcases hev : ev p env st with ⟨r, envp, stp⟩
    rw [allTrueThread, hev] at h1
    match r with
    | Res.ok (Value.Bool true) =>
      simp only [List.cons_append]
      rw [evalAndList, hev]
      exact ih post envp stp env1 st1 env2 st2 h1 h2
    | Res.ok (Value.Bool false) => simp at h1
    | Res.ok (Value.Number n) => simp at h1
    | Res.ok (Value.BuiltinFunction n b) => simp at h1
    | Res.ok (Value.Function pp b a nm) => simp at h1
    | Res.ok Value.Nil => simp at h1
    | Res.err er => simp at h1
    | Res.crash => simp at h1
    | Res.timeout => simp at h1

/-- The and loop returns Bool true when every operand evaluates to Bool
true, with the final threaded state. -/
theorem andList_allTrue (ev : Evaluator) (whole : Expr) (es : List Expr) :
    ∀ (env st env1 st1 : _),
      allTrueThread ev es env st = some (env1, st1) →
      evalAndList ev whole es env st = (Res.ok (Value.Bool true), env1, st1) := by
  induction es with
  | nil =>
    intro env st env1 st1 h1
    simp only [allTrueThread, Option.some.injEq, Prod.mk.injEq] at h1
    obtain ⟨rfl, rfl⟩ := h1
    rfl
  | cons p es ih =>
    intro env st env1 st1 h1
    rcases hev : ev p env st with ⟨r, envp, stp⟩
    rw [allTrueThread, hev] at h1
    match r with
    | Res.ok (Value.Bool true) =>
      rw [evalAndList, hev]
      exact ih envp stp env1 st1 h1
    | Res.ok (Value.Bool false) => simp at h1
    | Res.ok (Value.Number n) => simp at h1
    | Res.ok (Value.BuiltinFunction n b) => simp at h1
    | Res.ok (Value.Function pp b a nm) => simp at h1
    | Res.ok Value.Nil => simp at h1
    | Res.err er => simp at h1
    | Res.crash => simp at h1
    | Res.timeout => simp at h1

/-- The or loop returns Bool true at the first operand evaluating to Bool
true, independent of anything after it. -/
theorem orList_shortCircuit (ev : Evaluator) (whole e : Expr) (pre : List Expr) :
    ∀ (post : List Expr) (env st env1 st1 env2 st2 : _),
      allFalseThread ev pre env st = some (env1, st1) →
      ev e env1 st1 = (Res.ok (Value.Bool true), env2, st2) →
      evalOrList ev whole (pre ++ e :: post) env st =
        (Res.ok (Value.Bool true), env2, st2) := by
  induction pre with
  | nil =>
    intro post env st env1 st1 env2 st2 h1 h2
    simp only [allFalseThread, Option.some.injEq, Prod.mk.injEq] at h1
    obtain ⟨rfl, rfl⟩ := h1
    simp [evalOrList, h2]
  | cons p pre ih =>
    intro post env st env1 st1 env2 st2 h1 h2
    rcases hev : ev p env st with ⟨r, envp, stp⟩
    rw [allFalseThread, hev] at h1
    match r with
    | Res.ok (Value.Bool false) =>
      simp only [List.cons_append]
      rw [evalOrList, hev]
      exact ih post envp stp env1 st1 env2 st2 h1 h2
    | Res.ok (Value.Bool true) => simp at h1
    | Res.ok (Value.Number n) => simp at h1
    | Res.ok (Value.BuiltinFunction n b) => simp at h1
    | Res.ok (Value.Function pp b a nm) => simp at h1
    | Res.ok Value.Nil => simp at h1
    | Res.err er => simp at h1
    | Res.crash => simp at h1
    | Res.timeout => simp at h1

/-- The or loop returns Bool false when every operand evaluates to Bool
false, with the final threaded state. -/
theorem orList_allFalse (ev : Evaluator) (whole : Expr) (es : List Expr) :
    ∀ (env st env1 st1 : _),
      allFalseThread ev es env st = some (env1, st1) →
      evalOrList ev whole es env st = (Res.ok (Value.Bool false), env1, st1) := by
  induction es with
  | nil =>
    intro env st env1 st1 h1
    simp only [allFalseThread, Option.some.injEq, Prod.mk.injEq] at h1
    obtain ⟨rfl, rfl⟩ := h1
    rfl
  | cons p es ih =>
    intro env st env1 st1 h1
    rcases hev : ev p env st with ⟨r, envp, stp⟩
    rw [allFalseThread, hev] at h1
    match r with
    | Res.ok (Value.Bool false) =>
      rw [evalOrList, hev]
      exact ih envp stp env1 st1 h1
    | Res.ok (Value.Bool true) => simp at h1
    | Res.ok (Value.Number n) => simp at h1
    | Res.ok (Value.BuiltinFunction n b) => simp at h1
    | Res.ok (Value.Function pp b a nm) => simp at h1
    | Res.ok Value.Nil => simp at h1
    | Res.err er => simp at h1
    | Res.crash => simp at h1
    | Res.timeout => simp at h1

/-- Claim C5, counterexample: (cond (else 5) 7) contains the trailing
element 7, which is not a 2-element List, yet evaluation succeeds with
Number 5 instead of failing with InvalidSyntax: clause shapes after a
selected clause are never checked. -/
theorem C5_counterexample :
    (eval 9 condElseExtra Env.new []).1 = Res.ok (Value.Number 5) ∧
    (eval 9 condElseExtra Env.new []).1 ≠
      Res.err (EvalError.InvalidSyntax condElseExtra "cond requires a list of pairs") := by
  refine ⟨by decide, by decide⟩

/-- Claim C5 as amended: a cond with fewer than 2 trailing elements fails
with InvalidSyntax; clauses are examined in order and their shape is
checked lazily: a clause reached during iteration that is not a 2-element
List causes InvalidSyntax, an else test selects its clause
unconditionally, a reached test evaluating to a non-Bool causes TypeError,
the first test evaluating to true selects its clause; if the loop
exhausts the clauses the cond fails with the no-else InvalidSyntax, and a
clause list containing an else clause can never exhaust the loop. -/
theorem C5_cond_clause_semantics :
    (∀ (fuel : Nat) (rest : List Expr) (env : Env) (st : Store), rest.length < 2 →
      eval (fuel + 1) (Expr.List (Expr.Symbol "cond" :: rest)) env st =
        (Res.err (EvalError.InvalidSyntax (Expr.List (Expr.Symbol "cond" :: rest))
          "cond requires at least 2 arguments"), env, st)) ∧
    (∀ (ev : Evaluator) (whole v : Expr) (cs : List Expr) (env : Env) (st : Store),
      evalCondClauses ev whole (Expr.List [Expr.Symbol "else", v] :: cs) env st =
        (some (ev v env st), env, st)) ∧
    (∀ (ev : Evaluator) (whole cnd v : Expr) (cs : List Expr) (env env1 : Env)
        (st st1 : Store),
      isElseSym cnd = false →
      ev cnd env st = (Res.ok (Value.Bool true), env1, st1) →
      evalCondClauses ev whole (Expr.List [cnd, v] :: cs) env st =
        (some (ev v env1 st1), env1, st1)) ∧
    (∀ (ev : Evaluator) (whole cnd v : Expr) (cs : List Expr) (env env1 : Env)
        (st st1 : Store) (w : Value),
      isElseSym cnd = false →
      ev cnd env st = (Res.ok w, env1, st1) →
      (∀ b, w ≠ Value.Bool b) →
      evalCondClauses ev whole (Expr.List [cnd, v] :: cs) env st =
        (some (Res.err (EvalError.TypeError "bool" w cnd), env1, st1), env1, st1)) ∧
    (∀ (ev : Evaluator) (whole c : Expr) (cs : List Expr) (env : Env) (st : Store),
      isPairClause c = false →
      evalCondClauses ev whole (c :: cs) env st =
        (some (Res.err (EvalError.InvalidSyntax whole "cond requires a list of pairs"),
          env, st), env, st)) ∧
    (∀ (ev : Evaluator) (whole : Expr) (cs : List Expr) (env : Env) (st : Store),
      containsElse cs = true → (evalCondClauses ev whole cs env st).1.isSome = true) ∧
    (∀ (fuel : Nat) (rest : List Expr) (env env1 : Env) (st st1 : Store),
      ¬ rest.length < 2 →
      evalCondClauses (eval fuel) (Expr.List (Expr.Symbol "cond" :: rest)) rest env st =
        (none, env1, st1) →
      eval (fuel + 1) (Expr.List (Expr.Symbol "cond" :: rest)) env st =
        (Res.err (EvalError.InvalidSyntax (Expr.List (Expr.Symbol "cond" :: rest))
          "cond requires at least one else clause"), env1, st1)) := by
  refine ⟨?_, ?_, ?_, ?_, ?_, ?_, ?_⟩
  · intro fuel rest env st h
    simp [eval, evalCore, h]
  · intro ev whole v cs env st
    simp [evalCondClauses, isElseSym]
  · intro ev whole cnd v cs env env1 st st1 h1 h2
    simp [evalCondClauses, h1, h2]
  · intro ev whole cnd v cs env env1 st st1 w h1 h2 h3
    match w with
    | Value.Bool b => exact absurd rfl (h3 b)
    | Value.Number n => simp [evalCondClauses, h1, h2]
    | Value.BuiltinFunction n b => simp [evalCondClauses, h1, h2]
    | Value.Function p b a nm => simp [evalCondClauses, h1, h2]
    | Value.Nil => simp [evalCondClauses, h1, h2]
  · intro ev whole c cs env st h
    match c with
    | Expr.Symbol s => simp [evalCondClauses]
    | Expr.Number n => simp [evalCondClauses]
    | Expr.List [] => simp [evalCondClauses]
    | Expr.List [a] => simp [evalCondClauses]
    | Expr.List [a, b] => simp [isPairClause] at h
    | Expr.List (a :: b :: d :: l) => simp [evalCondClauses]
  · intro ev whole cs env st h
    exact condClauses_else_isSome ev whole cs env st h
  · intro fuel rest env env1 st st1 h1 h2
    simp [eval, evalCore, h1, h2]

/-- Witness for C5_cond_clause_semantics: the zero-clause cond. -/
theorem C5_cond_clause_semantics_witness :
    (([] : List Expr).length < 2 ∧
      eval 1 (Expr.List [Expr.Symbol "cond"]) plainEnv [] =
        (Res.err (EvalError.InvalidSyntax (Expr.List [Expr.Symbol "cond"])
          "cond requires at least 2 arguments"), plainEnv, [])) :=
  ⟨by decide, C5_cond_clause_semantics.1 0 [] plainEnv [] (by decide)⟩

/-- Claim C6, counterexample: (and false undefined-symbol) does not yield
Bool false: there is no boolean literal syntax, so the symbol false is
itself unbound and evaluation fails with UnboundSymbol false before any
short-circuiting. Symmetrically for (or true undefined-symbol). -/
theorem C6_counterexample :
    (eval 9 andFalseUndef Env.new []).1 = Res.err (EvalError.UnboundSymbol "false") ∧
    (eval 9 andFalseUndef Env.new []).1 ≠ Res.ok (Value.Bool false) ∧
    (eval 9 orTrueUndef Env.new []).1 = Res.err (EvalError.UnboundSymbol "true") ∧
    (eval 9 orTrueUndef Env.new []).1 ≠ Res.ok (Value.Bool true) := by
  refine ⟨by decide, by decide, by decide, by decide⟩

/-- Claim C6 as amended: with at least 2 trailing elements the and form
evaluates operands left to right through evalAndList; the loop returns
Bool false at the first operand that evaluates to Bool false with that
operand's state, for every possible continuation (so later operands are
never evaluated), and Bool true when all operands evaluate to true;
symmetrically or returns Bool true at the first true, and Bool false when
all are false; concretely, (and (< 2 1) undefined-symbol) yields false and
(or (< 1 2) undefined-symbol) yields true even though undefined-symbol is
unbound. -/
theorem C6_short_circuit :
    (∀ (fuel : Nat) (rest : List Expr) (env : Env) (st : Store), ¬ rest.length < 2 →
      eval (fuel + 1) (Expr.List (Expr.Symbol "and" :: rest)) env st =
        evalAndList (eval fuel) (Expr.List (Expr.Symbol "and" :: rest)) rest env st) ∧
    (∀ (fuel : Nat) (rest : List Expr) (env : Env) (st : Store), ¬ rest.length < 2 →
      eval (fuel + 1) (Expr.List (Expr.Symbol "or" :: rest)) env st =
        evalOrList (eval fuel) (Expr.List (Expr.Symbol "or" :: rest)) rest env st) ∧
    (∀ (ev : Evaluator) (whole e : Expr) (pre post : List Expr) (env st env1 st1 env2 st2 : _),
      allTrueThread ev pre env st = some (env1, st1) →
      ev e env1 st1 = (Res.ok (Value.Bool false), env2, st2) →
      evalAndList ev whole (pre ++ e :: post) env st =
        (Res.ok (Value.Bool false), env2, st2)) ∧
    (∀ (ev : Evaluator) (whole : Expr) (es : List Expr) (env st env1 st1 : _),
      allTrueThread ev es env st = some (env1, st1) →
      evalAndList ev whole es env st = (Res.ok (Value.Bool true), env1, st1)) ∧
    (∀ (ev : Evaluator) (whole e : Expr) (pre post : List Expr) (env st env1 st1 env2 st2 : _),
      allFalseThread ev pre env st = some (env1, st1) →
      ev e env1 st1 = (Res.ok (Value.Bool true), env2, st2) →
      evalOrList ev whole (pre ++ e :: post) env st =
        (Res.ok (Value.Bool true), env2, st2)) ∧
    (∀ (ev : Evaluator) (whole : Expr) (es : List Expr) (env st env1 st1 : _),
      allFalseThread ev es env st = some (env1, st1) →
      evalOrList ev whole es env st = (Res.ok (Value.Bool false), env1, st1)) ∧
    (eval 9 andShortCircuitExpr Env.new []).1 = Res.ok (Value.Bool false) ∧
    (eval 9 orShortCircuitExpr Env.new []).1 = Res.ok (Value.Bool true) := by
  refine ⟨?_, ?_,
    fun ev whole e pre post env st env1 st1 env2 st2 h1 h2 =>
      andList_shortCircuit ev whole e pre post env st env1 st1 env2 st2 h1 h2,
    fun ev whole es env st env1 st1 h1 => andList_allTrue ev whole es env st env1 st1 h1,
    fun ev whole e pre post env st env1 st1 env2 st2 h1 h2 =>
      orList_shortCircuit ev whole e pre post env st env1 st1 env2 st2 h1 h2,
    fun ev whole es env st env1 st1 h1 => orList_allFalse ev whole es env st env1 st1 h1,
    by decide, by decide⟩
  · intro fuel rest env st h
    simp [eval, evalCore, h]
  · intro fuel rest env st h
    simp [eval, evalCore, h]

/-- Witness for C6_short_circuit: the and loop short-circuits on the
concrete first operand (< 2 1) with the unbound symbol still pending. -/
theorem C6_short_circuit_witness :
    (allTrueThread (eval 3) [] Env.new [] = some (Env.new, []) ∧
      eval 3 (lst [sym "<", num 2, num 1]) Env.new [] =
        (Res.ok (Value.Bool false), Env.new, []) ∧
      evalAndList (eval 3) andShortCircuitExpr
          ([] ++ lst [sym "<", num 2, num 1] :: [sym "undefined-symbol"]) Env.new [] =
        (Res.ok (Value.Bool false), Env.new, [])) :=
  ⟨rfl, by decide,
    C6_short_circuit.2.2.1 (eval 3) andShortCircuitExpr (lst [sym "<", num 2, num 1]) []
      [sym "undefined-symbol"] Env.new [] Env.new [] Env.new [] rfl (by decide)⟩

end SchemeSpec
